import Mathlib

/-!
Shallow embedding of the Telegram homework-status bot (`homework.py`,
`exceptions.py`).  JSON-like Python values are modelled by `Value`;
exceptions become an `Except PyErr` monad whose errors carry the message
string the Python code builds at the raise site; one iteration of the
polling loop in `main` becomes the pure step function `runCycle` over an
explicit environment (network and transport outcomes) and loop state
(cursor and last-sent message).
-/

namespace HomeworkBot

/-- JSON-like Python values, as decoded from an API response body. -/
inductive Value where
  | none
  | bool (b : Bool)
  | int (n : Int)
  | str (s : String)
  | list (xs : List Value)
  | dict (kvs : List (String × Value))

mutual

/-- Structural boolean equality on values (Python `==` restricted to the
JSON fragment; numeric cross-type equalities such as `1 == True` are not
modelled, the repository never compares such values). -/
def beqValue : Value → Value → Bool
  | .none, .none => true
  | .bool a, .bool b => a == b
  | .int a, .int b => a == b
  | .str a, .str b => a == b
  | .list a, .list b => beqValueList a b
  | .dict a, .dict b => beqValueDict a b
  | _, _ => false

/-- Elementwise equality of value lists. -/
def beqValueList : List Value → List Value → Bool
  | [], [] => true
  | a :: as', b :: bs' => beqValue a b && beqValueList as' bs'
  | _, _ => false

/-- Entrywise equality of dict entry lists. -/
def beqValueDict : List (String × Value) → List (String × Value) → Bool
  | [], [] => true
  | (ka, va) :: as', (kb, vb) :: bs' =>
      ka == kb && beqValue va vb && beqValueDict as' bs'
  | _, _ => false

end

instance : BEq Value := ⟨beqValue⟩

/-- Short Python type name of a value, as in `type(x).__name__`. -/
def pyShortTypeName : Value → String
  | .none => "NoneType"
  | .bool _ => "bool"
  | .int _ => "int"
  | .str _ => "str"
  | .list _ => "list"
  | .dict _ => "dict"

/-- Rendering of `str(type(x))`, e.g. `<class 'dict'>`. -/
def pyTypeName (v : Value) : String :=
  "<class \x27" ++ pyShortTypeName v ++ "\x27>"

mutual

/-- Python `repr` of a value (quote-escaping inside exotic strings is not
modelled; the repository never builds such strings). -/
def pyRepr : Value → String
  | .none => "None"
  | .bool true => "True"
  | .bool false => "False"
  | .int n => toString n
  | .str s => "\x27" ++ s ++ "\x27"
  | .list xs => "[" ++ String.intercalate ", " (pyReprList xs) ++ "]"
  | .dict kvs => "\x7b" ++ String.intercalate ", " (pyReprDict kvs) ++ "\x7d"

/-- Python `repr` of each element of a list. -/
def pyReprList : List Value → List String
  | [] => []
  | v :: vs => pyRepr v :: pyReprList vs

/-- Python `repr` of each `key: value` entry of a dict. -/
def pyReprDict : List (String × Value) → List String
  | [] => []
  | (k, v) :: kvs => ("\x27" ++ k ++ "\x27: " ++ pyRepr v) :: pyReprDict kvs

end

/-- Python `str` of a value (`format` and f-strings use this). -/
def pyStr : Value → String
  | .str s => s
  | v => pyRepr v

/-- Python truthiness of a value. -/
def pyTruthy : Value → Bool
  | .none => false
  | .bool b => b
  | .int n => n != 0
  | .str s => s != ""
  | .list xs => !xs.isEmpty
  | .dict kvs => !kvs.isEmpty

/-- Exceptions raised by the embedded code, carrying the message string the
Python code formats at the raise site.  `WrongResponse` is the class
`homework.py` tries to import from `exceptions.py` (see `exceptionsModule`).
-/
inductive PyErr where
  | typeError (msg : String)
  | keyError (msg : String)
  | valueError (msg : String)
  | indexError (msg : String)
  | connectionError (msg : String)
  | wrongResponse (msg : String)
  deriving DecidableEq

/-- Python `str(exc)`: for `KeyError` the message is shown repr-quoted, for
the other classes it is the message itself. -/
def errStr : PyErr → String
  | .keyError m => "\x27" ++ m ++ "\x27"
  | .typeError m => m
  | .valueError m => m
  | .indexError m => m
  | .connectionError m => m
  | .wrongResponse m => m

/-- Python `key in container` for a string key: key membership on dicts,
element membership on lists, substring test on strings, `TypeError` on
non-iterable values. -/
def pyContains (k : String) : Value → Except PyErr Bool
  | .dict kvs => .ok (List.lookup k kvs).isSome
  | .list xs => .ok (xs.contains (.str k))
  | .str s => .ok (decide (k.toList <:+: s.toList))
  | v => .error (.typeError
      ("argument of type \x27" ++ pyShortTypeName v ++ "\x27 is not iterable"))

/-- Python `container[key]` for a string key. -/
def pyGetItem (v : Value) (k : String) : Except PyErr Value :=
  match v with
  | .dict kvs =>
      match List.lookup k kvs with
      | Option.some x => .ok x
      | Option.none => .error (.keyError k)
  | .str _ => .error (.typeError "string indices must be integers")
  | .list _ => .error (.typeError "list indices must be integers or slices, not str")
  | w => .error (.typeError
      ("\x27" ++ pyShortTypeName w ++ "\x27 object is not subscriptable"))

/-- Python `container[0]` (only ever reached on a non-empty list in the
repository, after `check_response` and the truthiness test). -/
def pyIndex0 : Value → Except PyErr Value
  | .list (x :: _) => .ok x
  | .list [] => .error (.indexError "list index out of range")
  | .str s =>
      match s.toList with
      | c :: _ => .ok (.str (String.mk [c]))
      | [] => .error (.indexError "string index out of range")
  | v => .error (.typeError
      ("\x27" ++ pyShortTypeName v ++ "\x27 object is not subscriptable"))

/-- Python `d.get(key, default)` on a response known to be a dict. -/
def dictGetD (v : Value) (k : String) (default : Value) : Value :=
  match v with
  | .dict kvs => (List.lookup k kvs).getD default
  | _ => default

/-! Message templates of `homework.py` (the `.format` constants), embedded
as concatenation functions. -/

/-- Constant `ENDPOINT`. -/
def ENDPOINT : String :=
  "https://practicum.yandex.ru/api/user_api/homework_statuses/"

/-- Template `TELEGRAM_MESSAGE`. -/
def TELEGRAM_MESSAGE (name verdict : String) : String :=
  "The status of the homework \"" ++ name ++ "\" has changed. " ++ verdict

/-- Template `TYPE_ERROR_MESSAGE` (arguments in template order). -/
def TYPE_ERROR_MESSAGE (expected_type obj ty : String) : String :=
  "Expected type " ++ expected_type ++ " for " ++ obj ++ ". Got: " ++ ty

/-- Template `KEY_ERROR_MESSAGE`. -/
def KEY_ERROR_MESSAGE (d k : String) : String :=
  "Dictionary: " ++ d ++ " does not contain key: " ++ k

/-- Template `UNEXPECTED_STATUS`. -/
def UNEXPECTED_STATUS (s : String) : String :=
  "Unexpected homework status: " ++ s

/-- Template `REQUEST_ERROR`. -/
def REQUEST_ERROR (error params : String) : String :=
  "Error accessing the endpoint: " ++ error ++ ". Parameters: " ++ params

/-- Template `UNEXPECTED_STATUS_CODE`. -/
def UNEXPECTED_STATUS_CODE (code params : String) : String :=
  "Unexpected status code: " ++ code ++ ". Parameters: " ++ params

/-- Template `ERROR_MESSAGE` (server-embedded soft error). -/
def ERROR_MESSAGE (key value params : String) : String :=
  "Error in the server response: " ++ key ++ ": " ++ value ++
    ". Parameters: " ++ params

/-- Constant `START_SEND_MESSAGE`. -/
def START_SEND_MESSAGE : String := "Starting to send message"

/-- Template `SUCCESS_SEND_MESSAGE`. -/
def SUCCESS_SEND_MESSAGE (m : String) : String :=
  "Message sent successfully: " ++ m

/-- Template `SEND_MESSAGE_ERROR`. -/
def SEND_MESSAGE_ERROR (message error : String) : String :=
  "Error sending message " ++ message ++ " Error: " ++ error

/-- Template `ERROR_PROGRAMM_MESSAGE`. -/
def ERROR_PROGRAMM_MESSAGE (e : String) : String :=
  "Program error: " ++ e

/-- Constant `HOMEWORK_VERDICTS`. -/
def HOMEWORK_VERDICTS : List (String × String) :=
  [("approved", "The work has been reviewed: the reviewer liked everything."),
   ("reviewing", "The work is being reviewed by the reviewer."),
   ("rejected", "The work has been reviewed: the reviewer has comments.")]

/-- Python hashability of a JSON value: lists and dicts are unhashable,
every other decoded value is hashable. -/
def Value.hashable : Value → Bool
  | .list _ => false
  | .dict _ => false
  | _ => true

/-- Python `HOMEWORK_VERDICTS.get(status)`: the dict has string keys, so a
hashable non-string status never matches; an unhashable status (array or
object) makes `dict.get` itself raise `TypeError: unhashable type`. -/
def verdictsGet : Value → Except PyErr (Option String)
  | .str s => .ok (List.lookup s HOMEWORK_VERDICTS)
  | .list _ => .error (.typeError "unhashable type: \x27list\x27")
  | .dict _ => .error (.typeError "unhashable type: \x27dict\x27")
  | _ => .ok Option.none

/-- Function `check_response` of `homework.py`. -/
def check_response (response : Value) : Except PyErr Unit :=
  match response with
  | .dict kvs =>
      match List.lookup "homeworks" kvs with
      | Option.none =>
          .error (.keyError (KEY_ERROR_MESSAGE "response" "homeworks"))
      | Option.some hv =>
          match hv with
          | .list _ => .ok ()
          | _ => .error (.typeError
              (TYPE_ERROR_MESSAGE "<class \x27list\x27>" "homeworks"
                (pyTypeName hv)))
  | _ => .error (.typeError
      (TYPE_ERROR_MESSAGE "<class \x27dict\x27>" "response"
        (pyTypeName response)))

/-- Function `parse_status` of `homework.py`. -/
def parse_status (homework : Value) : Except PyErr String := do
  let hasName ← pyContains "homework_name" homework
  let hasStatus ← pyContains "status" homework
  let missing_keys :=
    (if hasName then [] else ["homework_name"]) ++
      (if hasStatus then [] else ["status"])
  if missing_keys ≠ [] then
    throw (.keyError
      (KEY_ERROR_MESSAGE "homework" (String.intercalate ", " missing_keys)))
  let status ← pyGetItem homework "status"
  let verdict ← verdictsGet status
  match verdict with
  | Option.none => throw (.valueError (UNEXPECTED_STATUS (pyStr status)))
  | Option.some v =>
      if v = "" then
        throw (.valueError (UNEXPECTED_STATUS (pyStr status)))
      else do
        let name ← pyGetItem homework "homework_name"
        return TELEGRAM_MESSAGE (pyStr name) v

/-! The `exceptions` module and the import at the top of `homework.py`. -/

/-- Names defined by `exceptions.py`. -/
def exceptionsModule : List String :=
  ["TokenAccessError", "EndpointUnavailableError", "HTTPError",
   "SendMessageError"]

/-- Names `homework.py` imports from `exceptions` (line 11). -/
def homeworkImportedNames : List String := ["WrongResponse"]

/-- Python `from <module> import <names>`: the first name the module does
not define raises `ImportError`. -/
def importFrom (module : List String) (names : List String) :
    Except String Unit :=
  match names.find? (fun n => !module.contains n) with
  | Option.some n =>
      .error ("cannot import name \x27" ++ n ++ "\x27 from \x27exceptions\x27")
  | Option.none => .ok ()

/-- Loading the module `homework.py`: its only fallible top-level statement
in the embedded fragment is the `from exceptions import WrongResponse`. -/
def loadHomeworkModule : Except String Unit :=
  importFrom exceptionsModule homeworkImportedNames

/-! The API client `get_api_answer`, with the network modelled as an
explicit outcome. -/

/-- Outcome of the `requests.get` call: either the request raises a
`requests.RequestException` (carrying its text), or an HTTP response
arrives with a status code and a JSON-decoded body. -/
inductive FetchResult where
  | raise (err : String)
  | ok (status : Nat) (body : Value)

/-- The `request_params` dict built by `get_api_answer`; `tok` is the
`PRACTICUM_TOKEN` environment value interpolated into `HEADERS`. -/
def requestParams (tok : Option String) (ts : Value) : Value :=
  .dict
    [("url", .str ENDPOINT),
     ("headers", .dict
       [("Authorization",
         .str ("OAuth " ++ (match tok with
                            | Option.some t => t
                            | Option.none => "None")))]),
     ("params", .dict [("from_date", ts)])]

/-- Function `get_api_answer` of `homework.py`.  (The import of
`WrongResponse` it relies on in fact fails, see `loadHomeworkModule`; the
body is embedded as written.) -/
def get_api_answer (tok : Option String) (ts : Value) (fetch : FetchResult) :
    Except PyErr Value :=
  let params := requestParams tok ts
  match fetch with
  | .raise err => .error (.connectionError (REQUEST_ERROR err (pyStr params)))
  | .ok status body =>
      if status ≠ 200 then
        .error (.wrongResponse
          (UNEXPECTED_STATUS_CODE (toString status) (pyStr params)))
      else do
        let hasCode ← pyContains "code" body
        if hasCode then do
          let v ← pyGetItem body "code"
          throw (.wrongResponse (ERROR_MESSAGE "code" (pyStr v) (pyStr params)))
        let hasError ← pyContains "error" body
        if hasError then do
          let v ← pyGetItem body "error"
          throw (.wrongResponse (ERROR_MESSAGE "error" (pyStr v) (pyStr params)))
        return body

/-! The notifier `send_message`, with the transport modelled as an explicit
outcome. -/

/-- Outcome of `bot.send_message`: success, or a `telegram.TelegramError`
carrying its text. -/
inductive SendOutcome where
  | success
  | failure (err : String)

/-- Function `send_message` of `homework.py`: returns the sent message on
success and `none` on a caught `TelegramError` (never raising), together
with the log lines it emits. -/
def send_message (outcome : SendOutcome) (message : String) :
    Option String × List String :=
  match outcome with
  | .success =>
      (Option.some message,
       [START_SEND_MESSAGE, SUCCESS_SEND_MESSAGE message])
  | .failure err =>
      (Option.none,
       [START_SEND_MESSAGE, SEND_MESSAGE_ERROR message err])

/-! One iteration of the `while True` loop in `main`. -/

/-- Loop state of `main`: the poll cursor `timestamp` and the deduplication
slot `last_message` (initially `None`). -/
structure LoopState where
  timestamp : Value
  lastMessage : Option String

/-- External behaviour during one cycle: what the network returns to
`get_api_answer` and what the Telegram transport does if a send is
attempted. -/
structure CycleEnv where
  fetch : FetchResult
  send : SendOutcome

/-- Result of the `try` block of the loop body up to computing a candidate
message: no update (empty `homeworks`), a rendered message together with
the fetched response, or an exception. -/
inductive TryResult where
  | noUpdate
  | update (message : String) (response : Value)
  | failed (e : PyErr)

/-- The `try` block of the loop body of `main` (fetch, validate, read
`homeworks`, render the first record). -/
def runTry (tok : Option String) (env : CycleEnv) (s : LoopState) : TryResult :=
  match (do
      let response ← get_api_answer tok s.timestamp env.fetch
      let _ ← check_response response
      let homeworks ← pyGetItem response "homeworks"
      if pyTruthy homeworks then do
        let first ← pyIndex0 homeworks
        let message ← parse_status first
        return Option.some (message, response)
      else
        return Option.none : Except PyErr (Option (String × Value))) with
  | .error e => .failed e
  | .ok Option.none => .noUpdate
  | .ok (Option.some (m, response)) => .update m response

/-- The candidate rendered message of a cycle: the homework notification on
the success path, the synthesized `Program error: ...` text when the `try`
block raised, and nothing when there was no update. -/
def candidateMessage (tok : Option String) (env : CycleEnv) (s : LoopState) :
    Option String :=
  match runTry tok env s with
  | .noUpdate => Option.none
  | .update m _ => Option.some m
  | .failed e => Option.some (ERROR_PROGRAMM_MESSAGE (errStr e))

/-- Observable outcome of one loop cycle: the next state, the messages
passed to `send_message`, and the messages actually delivered. -/
structure CycleOut where
  state : LoopState
  attempted : List String
  delivered : List String

/-- One full iteration of the loop body of `main` (without the sleep):
dedup test, dispatch through `send_message`, slot and cursor update. -/
def runCycle (tok : Option String) (env : CycleEnv) (s : LoopState) :
    CycleOut :=
  match runTry tok env s with
  | .noUpdate => ⟨s, [], []⟩
  | .update m response =>
      if Option.some m ≠ s.lastMessage then
        match (send_message env.send m).1 with
        | Option.some _ =>
            ⟨⟨dictGetD response "current_date" s.timestamp, Option.some m⟩,
              [m], [m]⟩
        | Option.none => ⟨s, [m], []⟩
      else ⟨s, [], []⟩
  | .failed e =>
      let m := ERROR_PROGRAMM_MESSAGE (errStr e)
      if Option.some m ≠ s.lastMessage then
        match (send_message env.send m).1 with
        | Option.some _ => ⟨⟨s.timestamp, Option.some m⟩, [m], [m]⟩
        | Option.none => ⟨s, [m], []⟩
      else ⟨s, [], []⟩

/-- Finitely many iterations of the loop of `main` over a stream of cycle
environments. -/
def runLoop (tok : Option String) : List CycleEnv → LoopState → LoopState
  | [], s => s
  | env :: envs, s => runLoop tok envs (runCycle tok env s).state

/-- Template `TOKEN_ERROR_MESSAGE`; the placeholder receives the Python
list of missing names, rendered by `str`. -/
def TOKEN_ERROR_MESSAGE (tokens : String) : String :=
  "Environment variables " ++ tokens ++ " are not available"

/-- Function `check_tokens` of `homework.py`: collects the credential names
whose environment value is falsy (absent or empty) and raises
`EnvironmentError` listing them. -/
def check_tokens (practicum telegram chat : Option String) :
    Except String Unit :=
  let present : Option String → Bool := fun v =>
    match v with
    | Option.some s => s != ""
    | Option.none => false
  let unavailable_tokens :=
    (if present practicum then [] else ["PRACTICUM_TOKEN"]) ++
      (if present telegram then [] else ["TELEGRAM_TOKEN"]) ++
        (if present chat then [] else ["TELEGRAM_CHAT_ID"])
  if unavailable_tokens ≠ [] then
    .error (TOKEN_ERROR_MESSAGE
      (pyStr (.list (unavailable_tokens.map Value.str))))
  else .ok ()

/-- The program as executed: module load first (which is where the
`from exceptions import WrongResponse` of line 11 runs), then
`check_tokens` and the loop of `main` over finitely many cycles.  The
three credentials are the environment values `PRACTICUM_TOKEN`,
`TELEGRAM_TOKEN` and `TELEGRAM_CHAT_ID`. -/
def runProgram (practicum telegram chat : Option String)
    (envs : List CycleEnv) (s : LoopState) : Except String LoopState := do
  let _ ← loadHomeworkModule
  let _ ← check_tokens practicum telegram chat
  .ok (runLoop practicum envs s)

/-- Test for `isinstance(x, dict)`. -/
def Value.isDict : Value → Bool
  | .dict _ => true
  | _ => false

/-- Test for `isinstance(x, list)`. -/
def Value.isList : Value → Bool
  | .list _ => true
  | _ => false

/-! Reduction lemmas for the `Except` monad operations used by the
embedded code. -/

/-- Bind on a success reduces to the continuation. -/
@[simp] theorem ok_bind {ε α β : Type} (a : α) (f : α → Except ε β) :
    (Except.ok a >>= f) = f a := rfl

/-- Bind on an error short-circuits. -/
@[simp] theorem error_bind {ε α β : Type} (e : ε) (f : α → Except ε β) :
    ((Except.error e : Except ε α) >>= f) = .error e := rfl

/-- Throw builds an error. -/
@[simp] theorem throw_eq {ε α : Type} (e : ε) :
    (throw e : Except ε α) = .error e := rfl

/-- Pure builds a success. -/
@[simp] theorem pure_eq {ε α : Type} (a : α) :
    (pure a : Except ε α) = .ok a := rfl

/-! Claim theorems. -/

/-- C1: loading the program fails before any operation can run:
`homework.py` imports `WrongResponse` from `exceptions`, which defines only
`TokenAccessError`, `EndpointUnavailableError`, `HTTPError` and
`SendMessageError`, so for every execution (any credentials, any network
behaviour, any initial state) the import raises `ImportError` and neither
`check_tokens` nor the poll loop is ever reached. -/
theorem c1_import_of_wrong_response_fails (practicum telegram chat : Option String)
    (envs : List CycleEnv) (s : LoopState) :
    runProgram practicum telegram chat envs s =
      .error "cannot import name \x27WrongResponse\x27 from \x27exceptions\x27" := by
  rfl

/-- C4: the record with name `diploma` and status `approved` renders exactly
the fixed template string embedding the name and the verdict bound to
`approved`. -/
theorem c4_roundtrip_approved :
    parse_status (.dict [("homework_name", .str "diploma"),
        ("status", .str "approved")]) =
      .ok ("The status of the homework \"diploma\" has changed. " ++
        "The work has been reviewed: the reviewer liked everything.") := by
  rfl

/-- C2: `check_response` fails with a `TypeError` on every non-dict value,
with a `KeyError` on every dict without the key `homeworks`, with a
`TypeError` on every dict whose `homeworks` value is not a list, and
succeeds on every dict whose `homeworks` value is a list, whatever the
elements of that list and the other keys (`current_date` included) are. -/
theorem c2_check_response_spec :
    (∀ v : Value, v.isDict = false →
      check_response v = .error (.typeError
        (TYPE_ERROR_MESSAGE "<class \x27dict\x27>" "response" (pyTypeName v)))) ∧
    (∀ kvs : List (String × Value),
      List.lookup "homeworks" kvs = Option.none →
      check_response (.dict kvs) =
        .error (.keyError (KEY_ERROR_MESSAGE "response" "homeworks"))) ∧
    (∀ (kvs : List (String × Value)) (hv : Value),
      List.lookup "homeworks" kvs = Option.some hv → hv.isList = false →
      check_response (.dict kvs) = .error (.typeError
        (TYPE_ERROR_MESSAGE "<class \x27list\x27>" "homeworks" (pyTypeName hv)))) ∧
    (∀ (kvs : List (String × Value)) (xs : List Value),
      List.lookup "homeworks" kvs = Option.some (.list xs) →
      check_response (.dict kvs) = .ok ()) := by
  refine ⟨?_, ?_, ?_, ?_⟩
  · intro v h
    cases v <;> simp_all [check_response, Value.isDict]
  · intro kvs h
    simp [check_response, h]
  · intro kvs hv h hl
    cases hv <;> simp_all [check_response, Value.isList]
  · intro kvs xs h
    simp [check_response, h]

/-- Witness for C2: each case of `c2_check_response_spec` applied at a
concrete input. -/
theorem c2_check_response_witness :
    check_response (.str "hi") = .error (.typeError
        (TYPE_ERROR_MESSAGE "<class \x27dict\x27>" "response"
          (pyTypeName (.str "hi")))) ∧
    check_response (.dict [("current_date", .int 5)]) =
      .error (.keyError (KEY_ERROR_MESSAGE "response" "homeworks")) ∧
    check_response (.dict [("homeworks", .str "oops")]) =
      .error (.typeError (TYPE_ERROR_MESSAGE "<class \x27list\x27>" "homeworks"
        (pyTypeName (.str "oops")))) ∧
    check_response (.dict [("homeworks", .list [.int 3]),
        ("current_date", .str "later")]) = .ok () :=
  ⟨c2_check_response_spec.1 _ rfl,
   c2_check_response_spec.2.1 _ rfl,
   c2_check_response_spec.2.2.1 _ _ rfl rfl,
   c2_check_response_spec.2.2.2 _ _ rfl⟩

/-- Counterexample to C3: on a record whose `status` is an array, with both
keys present and the status outside the enumeration, `parse_status` does
not fail with the unrecognized-status `ValueError` the claim requires: the
`HOMEWORK_VERDICTS.get(status)` call itself raises
`TypeError: unhashable type` first. -/
theorem c3_parse_status_counterexample :
    parse_status (.dict [("homework_name", .str "d"), ("status", .list [])]) =
      .error (.typeError "unhashable type: \x27list\x27") := by
  rfl

/-- C3 (amended): on a homework record missing `homework_name` or `status`,
`parse_status` fails with a `KeyError` whose message joins every absent key
(each missing key occurs in the message); on a record with both keys and a
hashable status outside `approved`/`reviewing`/`rejected` (a string outside
the enumeration, or null/boolean/number), it fails with a `ValueError`
(unrecognized status); on a record whose status is unhashable (array or
object) it fails instead with the `TypeError` raised by the verdict-table
lookup. -/
theorem c3_parse_status_errors :
    (∀ (kvs : List (String × Value)) (missing : List String),
      missing =
        (if (List.lookup "homework_name" kvs).isSome then []
         else ["homework_name"]) ++
          (if (List.lookup "status" kvs).isSome then [] else ["status"]) →
      missing ≠ [] →
      parse_status (.dict kvs) = .error (.keyError
          (KEY_ERROR_MESSAGE "homework" (String.intercalate ", " missing))) ∧
        ∀ k ∈ missing,
          k.toList <:+:
            (KEY_ERROR_MESSAGE "homework"
              (String.intercalate ", " missing)).toList) ∧
    (∀ (kvs : List (String × Value)) (hn sv : Value),
      List.lookup "homework_name" kvs = Option.some hn →
      List.lookup "status" kvs = Option.some sv →
      sv.hashable = true →
      (∀ t : String, sv = .str t →
        t ≠ "approved" ∧ t ≠ "reviewing" ∧ t ≠ "rejected") →
      parse_status (.dict kvs) =
        .error (.valueError (UNEXPECTED_STATUS (pyStr sv)))) ∧
    (∀ (kvs : List (String × Value)) (hn sv : Value),
      List.lookup "homework_name" kvs = Option.some hn →
      List.lookup "status" kvs = Option.some sv →
      sv.hashable = false →
      parse_status (.dict kvs) = .error (.typeError
        ("unhashable type: \x27" ++ pyShortTypeName sv ++ "\x27"))) := by
  refine ⟨?_, ?_, ?_⟩
  · intro kvs missing hm hne
    cases h1 : (List.lookup "homework_name" kvs).isSome <;>
      cases h2 : (List.lookup "status" kvs).isSome <;>
        rw [h1, h2] at hm <;> subst hm
    · exact ⟨by simp [parse_status, pyContains, h1, h2], by simp; decide⟩
    · exact ⟨by simp [parse_status, pyContains, h1, h2], by simp; decide⟩
    · exact ⟨by simp [parse_status, pyContains, h1, h2], by simp; decide⟩
    · simp at hne
  · intro kvs hn sv h1 h2 hh hout
    have hv : verdictsGet sv = .ok Option.none := by
      cases sv with
      | str t =>
          rcases hout t rfl with ⟨ha, hb, hc⟩
          simp [verdictsGet, HOMEWORK_VERDICTS, List.lookup,
            beq_eq_false_iff_ne.mpr ha, beq_eq_false_iff_ne.mpr hb,
            beq_eq_false_iff_ne.mpr hc]
      | none => rfl
      | bool b => rfl
      | int n => rfl
      | list xs => simp [Value.hashable] at hh
      | dict kvs2 => simp [Value.hashable] at hh
    simp [parse_status, pyContains, pyGetItem, h1, h2, hv]
  · intro kvs hn sv h1 h2 hh
    have hv : verdictsGet sv = .error (.typeError
        ("unhashable type: \x27" ++ pyShortTypeName sv ++ "\x27")) := by
      cases sv with
      | list xs => rfl
      | dict kvs2 => rfl
      | none => simp [Value.hashable] at hh
      | bool b => simp [Value.hashable] at hh
      | int n => simp [Value.hashable] at hh
      | str t => simp [Value.hashable] at hh
    simp [parse_status, pyContains, pyGetItem, h1, h2, hv]

/-- Witness for C3 (amended): a record missing both keys, a record missing
only `homework_name`, a record with an unknown string status, and a record
with an object-valued (unhashable) status, with the missing-key messages
naming every absent key. -/
theorem c3_parse_status_witness :
    (parse_status (.dict []) = .error (.keyError
        (KEY_ERROR_MESSAGE "homework"
          (String.intercalate ", " ["homework_name", "status"]))) ∧
      ∀ k ∈ ["homework_name", "status"],
        k.toList <:+:
          (KEY_ERROR_MESSAGE "homework"
            (String.intercalate ", " ["homework_name", "status"])).toList) ∧
    (parse_status (.dict [("status", .str "ok")]) = .error (.keyError
        (KEY_ERROR_MESSAGE "homework"
          (String.intercalate ", " ["homework_name"]))) ∧
      ∀ k ∈ ["homework_name"],
        k.toList <:+:
          (KEY_ERROR_MESSAGE "homework"
            (String.intercalate ", " ["homework_name"])).toList) ∧
    parse_status (.dict [("homework_name", .str "d"),
        ("status", .str "weird")]) =
      .error (.valueError (UNEXPECTED_STATUS (pyStr (.str "weird")))) ∧
    parse_status (.dict [("homework_name", .str "d"),
        ("status", .dict [])]) =
      .error (.typeError
        ("unhashable type: \x27" ++ pyShortTypeName (.dict []) ++ "\x27")) :=
  ⟨c3_parse_status_errors.1 [] ["homework_name", "status"] rfl (by simp),
   c3_parse_status_errors.1 [("status", .str "ok")] ["homework_name"] rfl
     (by simp),
   c3_parse_status_errors.2.1 _ (.str "d") (.str "weird") rfl rfl rfl
     (by intro t ht
         injection ht with h
         subst h
         exact ⟨by decide, by decide, by decide⟩),
   c3_parse_status_errors.2.2 _ (.str "d") (.dict []) rfl rfl rfl⟩

/-- C9: `get_api_answer` turns a transport failure into a `ConnectionError`
carrying the underlying error text and the request parameters; a non-200
status into a `WrongResponse` carrying the status code and the request
parameters; a decoded body with a `code` or `error` field into a
`WrongResponse` carrying that field's value; and otherwise returns the
decoded body. -/
theorem c9_get_api_answer_spec :
    (∀ (tok : Option String) (ts : Value) (err : String),
      get_api_answer tok ts (.raise err) = .error (.connectionError
        (REQUEST_ERROR err (pyStr (requestParams tok ts))))) ∧
    (∀ (tok : Option String) (ts : Value) (status : Nat) (body : Value),
      status ≠ 200 →
      get_api_answer tok ts (.ok status body) = .error (.wrongResponse
        (UNEXPECTED_STATUS_CODE (toString status)
          (pyStr (requestParams tok ts))))) ∧
    (∀ (tok : Option String) (ts : Value) (kvs : List (String × Value))
        (v : Value),
      List.lookup "code" kvs = Option.some v →
      get_api_answer tok ts (.ok 200 (.dict kvs)) = .error (.wrongResponse
        (ERROR_MESSAGE "code" (pyStr v) (pyStr (requestParams tok ts))))) ∧
    (∀ (tok : Option String) (ts : Value) (kvs : List (String × Value))
        (v : Value),
      List.lookup "code" kvs = Option.none →
      List.lookup "error" kvs = Option.some v →
      get_api_answer tok ts (.ok 200 (.dict kvs)) = .error (.wrongResponse
        (ERROR_MESSAGE "error" (pyStr v) (pyStr (requestParams tok ts))))) ∧
    (∀ (tok : Option String) (ts : Value) (kvs : List (String × Value)),
      List.lookup "code" kvs = Option.none →
      List.lookup "error" kvs = Option.none →
      get_api_answer tok ts (.ok 200 (.dict kvs)) = .ok (.dict kvs)) := by
  refine ⟨fun tok ts err => rfl, ?_, ?_, ?_, ?_⟩
  · intro tok ts status body h
    simp [get_api_answer, h]
  · intro tok ts kvs v h
    simp [get_api_answer, pyContains, pyGetItem, h]
  · intro tok ts kvs v hc he
    simp [get_api_answer, pyContains, pyGetItem, hc, he]
  · intro tok ts kvs hc he
    simp [get_api_answer, pyContains, hc, he]

/-- Witness for C9: each case of `c9_get_api_answer_spec` at a concrete
input. -/
theorem c9_get_api_answer_witness :
    get_api_answer Option.none (.int 0) (.raise "timed out") =
      .error (.connectionError (REQUEST_ERROR "timed out"
        (pyStr (requestParams Option.none (.int 0))))) ∧
    get_api_answer Option.none (.int 0) (.ok 404 (.dict [])) =
      .error (.wrongResponse (UNEXPECTED_STATUS_CODE (toString 404)
        (pyStr (requestParams Option.none (.int 0))))) ∧
    get_api_answer Option.none (.int 0)
        (.ok 200 (.dict [("code", .str "not_authenticated")])) =
      .error (.wrongResponse (ERROR_MESSAGE "code"
        (pyStr (.str "not_authenticated"))
        (pyStr (requestParams Option.none (.int 0))))) ∧
    get_api_answer Option.none (.int 0)
        (.ok 200 (.dict [("error", .str "boom")])) =
      .error (.wrongResponse (ERROR_MESSAGE "error" (pyStr (.str "boom"))
        (pyStr (requestParams Option.none (.int 0))))) ∧
    get_api_answer Option.none (.int 0)
        (.ok 200 (.dict [("homeworks", .list []), ("current_date", .int 7)])) =
      .ok (.dict [("homeworks", .list []), ("current_date", .int 7)]) :=
  ⟨c9_get_api_answer_spec.1 _ _ _,
   c9_get_api_answer_spec.2.1 _ _ 404 _ (by decide),
   c9_get_api_answer_spec.2.2.1 _ _ _ _ rfl,
   c9_get_api_answer_spec.2.2.2.1 _ _ _ _ rfl rfl,
   c9_get_api_answer_spec.2.2.2.2 _ _ _ rfl rfl⟩

/-- C8: on a transport failure `send_message` returns no sent message
(instead of raising) and logs the failure; on success it returns the sent
message.  In the orchestrator a cycle whose transport fails leaves the
whole loop state (dedup slot and cursor) unchanged, so the same message is
retried next cycle, and delivers nothing; a successful send of a new
homework notification updates the dedup slot. -/
theorem c8_send_message_spec :
    (∀ message err : String,
      (send_message (.failure err) message).1 = Option.none ∧
        SEND_MESSAGE_ERROR message err ∈ (send_message (.failure err) message).2) ∧
    (∀ message : String,
      (send_message .success message).1 = Option.some message) ∧
    (∀ (tok : Option String) (fetch : FetchResult) (err : String)
        (s : LoopState),
      (runCycle tok ⟨fetch, .failure err⟩ s).state = s ∧
        (runCycle tok ⟨fetch, .failure err⟩ s).delivered = []) ∧
    (∀ (tok : Option String) (fetch : FetchResult) (s : LoopState)
        (m : String) (resp : Value),
      runTry tok ⟨fetch, .success⟩ s = .update m resp →
      Option.some m ≠ s.lastMessage →
      (runCycle tok ⟨fetch, .success⟩ s).state.lastMessage = Option.some m) := by
  refine ⟨fun message err => ⟨rfl, by simp [send_message]⟩,
    fun message => rfl, ?_, ?_⟩
  · intro tok fetch err s
    cases hr : runTry tok ⟨fetch, .failure err⟩ s with
    | noUpdate => simp [runCycle, hr]
    | update m resp =>
        by_cases hm : Option.some m ≠ s.lastMessage <;>
          simp [runCycle, hr, hm, send_message]
    | failed e =>
        by_cases hm : Option.some (ERROR_PROGRAMM_MESSAGE (errStr e)) ≠
            s.lastMessage <;>
          simp [runCycle, hr, hm, send_message]
  · intro tok fetch s m resp hr hm
    simp [runCycle, hr, hm, send_message]

/-- Witness for C8: a failed send at a concrete message, a successful send,
a concrete cycle whose transport fails (state unchanged, nothing
delivered), and a concrete successful dispatch updating the dedup slot. -/
theorem c8_send_message_witness :
    ((send_message (.failure "Chat not found") "hello").1 = Option.none ∧
      SEND_MESSAGE_ERROR "hello" "Chat not found" ∈
        (send_message (.failure "Chat not found") "hello").2) ∧
    (send_message .success "hello").1 = Option.some "hello" ∧
    ((runCycle Option.none ⟨.raise "down", .failure "Chat not found"⟩
        ⟨.int 3, Option.none⟩).state = ⟨.int 3, Option.none⟩ ∧
      (runCycle Option.none ⟨.raise "down", .failure "Chat not found"⟩
        ⟨.int 3, Option.none⟩).delivered = []) ∧
    (runCycle Option.none
        ⟨.ok 200 (.dict [("homeworks", .list [.dict
            [("homework_name", .str "x"), ("status", .str "approved")]]),
          ("current_date", .int 9)]), .success⟩
        ⟨.int 3, Option.none⟩).state.lastMessage =
      Option.some (TELEGRAM_MESSAGE "x"
        "The work has been reviewed: the reviewer liked everything.") :=
  ⟨c8_send_message_spec.1 "hello" "Chat not found",
   c8_send_message_spec.2.1 "hello",
   c8_send_message_spec.2.2.1 Option.none (.raise "down") "Chat not found"
     ⟨.int 3, Option.none⟩,
   c8_send_message_spec.2.2.2 Option.none _ ⟨.int 3, Option.none⟩ _ _ rfl
     (by simp)⟩

/-- Shape of one cycle: either it is a no-op (no candidate, duplicate
candidate, or failed send), possibly attempting the candidate, or it
delivers the candidate and stores it in the dedup slot. -/
theorem runCycle_shape (tok : Option String) (env : CycleEnv) (s : LoopState) :
    runCycle tok env s = ⟨s, [], []⟩ ∨
    (∃ m, candidateMessage tok env s = Option.some m ∧
      runCycle tok env s = ⟨s, [m], []⟩) ∨
    (∃ m, candidateMessage tok env s = Option.some m ∧
      (runCycle tok env s).delivered = [m] ∧
      (runCycle tok env s).state.lastMessage = Option.some m ∧
      (runCycle tok env s).attempted = [m]) := by
  cases hr : runTry tok env s with
  | noUpdate => left; simp [runCycle, hr]
  | update m resp =>
      by_cases hm : Option.some m ≠ s.lastMessage
      · cases hs : (send_message env.send m).1 with
        | none =>
            right; left
            exact ⟨m, by simp [candidateMessage, hr],
              by simp [runCycle, hr, hm, hs]⟩
        | some x =>
            right; right
            exact ⟨m, by simp [candidateMessage, hr],
              by simp [runCycle, hr, hm, hs],
              by simp [runCycle, hr, hm, hs],
              by simp [runCycle, hr, hm, hs]⟩
      · left; simp [runCycle, hr, hm]
  | failed e =>
      by_cases hm : Option.some (ERROR_PROGRAMM_MESSAGE (errStr e)) ≠
          s.lastMessage
      · cases hs : (send_message env.send (ERROR_PROGRAMM_MESSAGE (errStr e))).1 with
        | none =>
            right; left
            exact ⟨ERROR_PROGRAMM_MESSAGE (errStr e),
              by simp [candidateMessage, hr],
              by simp [runCycle, hr, hm, hs]⟩
        | some x =>
            right; right
            exact ⟨ERROR_PROGRAMM_MESSAGE (errStr e),
              by simp [candidateMessage, hr],
              by simp [runCycle, hr, hm, hs],
              by simp [runCycle, hr, hm, hs],
              by simp [runCycle, hr, hm, hs]⟩
      · left; simp [runCycle, hr, hm]

/-- A cycle whose candidate message equals the dedup slot is a complete
no-op: nothing is attempted and the state is unchanged. -/
theorem runCycle_of_candidate_eq_last (tok : Option String) (env : CycleEnv)
    (s : LoopState) (h : candidateMessage tok env s = s.lastMessage) :
    runCycle tok env s = ⟨s, [], []⟩ := by
  cases hr : runTry tok env s with
  | noUpdate => simp [runCycle, hr]
  | update m resp =>
      rw [candidateMessage, hr] at h
      simp [runCycle, hr, ← h]
  | failed e =>
      rw [candidateMessage, hr] at h
      simp [runCycle, hr, ← h]

/-- C5: a cycle whose candidate rendered message (homework notification or
synthesized failure message alike) equals the last-sent slot dispatches
nothing and changes nothing; and across any two consecutive cycles that
render the same candidate message, at most one notification is delivered.
-/
theorem c5_dedup_spec :
    (∀ (tok : Option String) (env : CycleEnv) (s : LoopState),
      candidateMessage tok env s = s.lastMessage →
      runCycle tok env s = ⟨s, [], []⟩) ∧
    (∀ (tok : Option String) (e1 e2 : CycleEnv) (s : LoopState) (m : String),
      candidateMessage tok e1 s = Option.some m →
      candidateMessage tok e2 (runCycle tok e1 s).state = Option.some m →
      ((runCycle tok e1 s).delivered ++
          (runCycle tok e2 (runCycle tok e1 s).state).delivered).length ≤ 1) := by
  constructor
  · exact runCycle_of_candidate_eq_last
  · intro tok e1 e2 s m h1 h2
    have hlen : ∀ (env : CycleEnv) (s' : LoopState),
        (runCycle tok env s').delivered.length ≤ 1 := by
      intro env s'
      rcases runCycle_shape tok env s' with h | ⟨m', _, h⟩ | ⟨m', _, hd, _, _⟩
      · simp [h]
      · simp [h]
      · simp [hd]
    rcases runCycle_shape tok e1 s with h | ⟨m', hc, h⟩ | ⟨m', hc, hd, hl, _⟩
    · rw [h]
      simpa using hlen e2 s
    · rw [h]
      simpa using hlen e2 s
    · rw [h1] at hc
      injection hc with hc
      subst hc
      have heq : candidateMessage tok e2 (runCycle tok e1 s).state =
          (runCycle tok e1 s).state.lastMessage := by rw [h2, hl]
      rw [hd, runCycle_of_candidate_eq_last tok e2 _ heq]
      simp

/-- Witness for C5: a duplicate-candidate cycle is a no-op at a concrete
input (an error message equal to the slot), and two consecutive cycles
rendering the same connectivity-error message deliver exactly one
notification in total. -/
theorem c5_dedup_witness :
    runCycle Option.none ⟨.raise "down", .success⟩
        ⟨.int 0, Option.some (ERROR_PROGRAMM_MESSAGE
          (REQUEST_ERROR "down" (pyStr (requestParams Option.none (.int 0)))))⟩ =
      ⟨⟨.int 0, Option.some (ERROR_PROGRAMM_MESSAGE
          (REQUEST_ERROR "down" (pyStr (requestParams Option.none (.int 0)))))⟩,
        [], []⟩ ∧
    ((runCycle Option.none ⟨.raise "down", .success⟩
          ⟨.int 0, Option.none⟩).delivered ++
        (runCycle Option.none ⟨.raise "down", .success⟩
          (runCycle Option.none ⟨.raise "down", .success⟩
            ⟨.int 0, Option.none⟩).state).delivered).length ≤ 1 :=
  ⟨c5_dedup_spec.1 Option.none ⟨.raise "down", .success⟩
      ⟨.int 0, Option.some (ERROR_PROGRAMM_MESSAGE
        (REQUEST_ERROR "down" (pyStr (requestParams Option.none (.int 0)))))⟩
      rfl,
   c5_dedup_spec.2 Option.none ⟨.raise "down", .success⟩
      ⟨.raise "down", .success⟩ ⟨.int 0, Option.none⟩
      (ERROR_PROGRAMM_MESSAGE
        (REQUEST_ERROR "down" (pyStr (requestParams Option.none (.int 0)))))
      rfl rfl⟩

/-- C10: a cycle in which the `try` block raised any error is caught at the
top of the loop body and converted into the `Program error: ...` message,
attempted as a notification exactly when it differs from the last-sent
slot, and the loop never terminates: the iteration always proceeds to the
next cycle with the resulting state. -/
theorem c10_recoverable_error_spec :
    ∀ (tok : Option String) (env : CycleEnv) (s : LoopState) (e : PyErr),
      runTry tok env s = .failed e →
      ((runCycle tok env s).attempted =
        if Option.some (ERROR_PROGRAMM_MESSAGE (errStr e)) ≠ s.lastMessage
        then [ERROR_PROGRAMM_MESSAGE (errStr e)] else []) ∧
      (∀ envs : List CycleEnv,
        runLoop tok (env :: envs) s =
          runLoop tok envs (runCycle tok env s).state) := by
  intro tok env s e h
  constructor
  · by_cases hm : Option.some (ERROR_PROGRAMM_MESSAGE (errStr e)) ≠
        s.lastMessage
    · cases hs : (send_message env.send (ERROR_PROGRAMM_MESSAGE (errStr e))).1 <;>
        simp [runCycle, h, hm, hs]
    · simp [runCycle, h, hm]
  · intro envs
    rfl

/-- Witness for C10: a concrete connectivity failure is converted into a
`Program error: ...` notification attempt and the loop steps to the next
cycle. -/
theorem c10_recoverable_error_witness :
    (runCycle Option.none ⟨.raise "timed out", .success⟩
        ⟨.int 0, Option.none⟩).attempted =
      [ERROR_PROGRAMM_MESSAGE (REQUEST_ERROR "timed out"
        (pyStr (requestParams Option.none (.int 0))))] ∧
    runLoop Option.none [⟨.raise "timed out", .success⟩] ⟨.int 0, Option.none⟩ =
      runLoop Option.none []
        (runCycle Option.none ⟨.raise "timed out", .success⟩
          ⟨.int 0, Option.none⟩).state :=
  ⟨(by
      rw [(c10_recoverable_error_spec Option.none
        ⟨.raise "timed out", .success⟩ ⟨.int 0, Option.none⟩
        (.connectionError (REQUEST_ERROR "timed out"
          (pyStr (requestParams Option.none (.int 0))))) rfl).1]
      simp [errStr]),
   (c10_recoverable_error_spec Option.none ⟨.raise "timed out", .success⟩
      ⟨.int 0, Option.none⟩
      (.connectionError (REQUEST_ERROR "timed out"
        (pyStr (requestParams Option.none (.int 0))))) rfl).2 []⟩

/-- Counterexample to C6: a cycle fetches a response whose `current_date`
is `999` and whose first homework record lacks `status`; `parse_status`
raises, the synthesized failure notification is successfully dispatched
(`delivered` is non-empty), yet the cursor stays at `100` instead of
following the server-reported `current_date` of that cycle. -/
theorem c6_cursor_counterexample :
    (runCycle Option.none
        ⟨.ok 200 (.dict [("homeworks", .list [.dict
            [("homework_name", .str "x")]]), ("current_date", .int 999)]),
          .success⟩
        ⟨.int 100, Option.none⟩).delivered =
      [ERROR_PROGRAMM_MESSAGE (errStr (.keyError
        (KEY_ERROR_MESSAGE "homework" "status")))] ∧
    List.lookup "current_date"
        [("homeworks", Value.list [.dict [("homework_name", .str "x")]]),
         ("current_date", Value.int 999)] = Option.some (.int 999) ∧
    (runCycle Option.none
        ⟨.ok 200 (.dict [("homeworks", .list [.dict
            [("homework_name", .str "x")]]), ("current_date", .int 999)]),
          .success⟩
        ⟨.int 100, Option.none⟩).state.timestamp = .int 100 ∧
    Value.int 100 ≠ Value.int 999 := by
  refine ⟨rfl, rfl, rfl, ?_⟩
  intro h
  injection h with h
  exact absurd h (by decide)

/-- C6 (amended): after a cycle that successfully dispatches the
success-path homework notification, the next fetch uses the server's
`current_date` from that cycle (the cursor is unchanged when the key is
absent, via the `.get` default); after a cycle whose dispatch fails or
delivers nothing the cursor is unchanged; and a cycle that raised (even
when its synthesized failure notification is dispatched) leaves the cursor
unchanged. -/
theorem c6_cursor_advancement :
    ∀ (tok : Option String) (env : CycleEnv) (s : LoopState),
      (∀ (m : String) (response : Value),
        runTry tok env s = .update m response →
        (runCycle tok env s).delivered ≠ [] →
        (runCycle tok env s).state.timestamp =
          dictGetD response "current_date" s.timestamp) ∧
      ((runCycle tok env s).delivered = [] →
        (runCycle tok env s).state.timestamp = s.timestamp) ∧
      (∀ e : PyErr, runTry tok env s = .failed e →
        (runCycle tok env s).state.timestamp = s.timestamp) := by
  intro tok env s
  refine ⟨?_, ?_, ?_⟩
  · intro m response hr hd
    by_cases hm : Option.some m ≠ s.lastMessage
    · cases hs : (send_message env.send m).1 with
      | none => simp [runCycle, hr, hm, hs] at hd
      | some x => simp [runCycle, hr, hm, hs]
    · simp [runCycle, hr, hm] at hd
  · intro hd
    rcases runCycle_shape tok env s with h | ⟨m, _, h⟩ | ⟨m, _, hdl, _, _⟩
    · simp [h]
    · simp [h]
    · rw [hdl] at hd
      cases hd
  · intro e hr
    by_cases hm : Option.some (ERROR_PROGRAMM_MESSAGE (errStr e)) ≠
        s.lastMessage
    · cases hs : (send_message env.send (ERROR_PROGRAMM_MESSAGE (errStr e))).1 <;>
        simp [runCycle, hr, hm, hs]
    · simp [runCycle, hr, hm]

/-- Witness for the amended C6: a successful dispatch adopts the fetched
`current_date`, an empty cycle keeps the cursor, and an error cycle whose
failure notification is dispatched keeps the cursor. -/
theorem c6_cursor_advancement_witness :
    (runCycle Option.none
        ⟨.ok 200 (.dict [("homeworks", .list [.dict
            [("homework_name", .str "x"), ("status", .str "approved")]]),
          ("current_date", .int 9)]), .success⟩
        ⟨.int 3, Option.none⟩).state.timestamp =
      dictGetD (.dict [("homeworks", .list [.dict
          [("homework_name", .str "x"), ("status", .str "approved")]]),
        ("current_date", .int 9)]) "current_date" (.int 3) ∧
    (runCycle Option.none ⟨.ok 200 (.dict [("homeworks", .list [])]),
        .success⟩ ⟨.int 3, Option.none⟩).state.timestamp = .int 3 ∧
    (runCycle Option.none ⟨.raise "down", .success⟩
        ⟨.int 3, Option.none⟩).state.timestamp = .int 3 :=
  ⟨(c6_cursor_advancement Option.none _ _).1 _ _ rfl (by decide),
   (c6_cursor_advancement Option.none _ _).2.1 rfl,
   (c6_cursor_advancement Option.none _ _).2.2 _ rfl⟩

/-- Counterexample to C7: first, a successful cycle observing one approved
homework whose rendered message equals the dedup slot leaves the cursor at
`100` although the server reported `current_date = 999`; second, the
cursor is not advanced monotonically: a delivered notification adopts a
server-reported `current_date` of `50`, moving the cursor backwards from
`100`. -/
theorem c7_monotonic_counterexample :
    (runTry Option.none
        ⟨.ok 200 (.dict [("homeworks", .list [.dict
            [("homework_name", .str "x"), ("status", .str "approved")]]),
          ("current_date", .int 999)]), .success⟩
        ⟨.int 100, Option.some (TELEGRAM_MESSAGE "x"
          "The work has been reviewed: the reviewer liked everything.")⟩ =
      .update (TELEGRAM_MESSAGE "x"
          "The work has been reviewed: the reviewer liked everything.")
        (.dict [("homeworks", .list [.dict
            [("homework_name", .str "x"), ("status", .str "approved")]]),
          ("current_date", .int 999)]) ∧
      (runCycle Option.none
          ⟨.ok 200 (.dict [("homeworks", .list [.dict
              [("homework_name", .str "x"), ("status", .str "approved")]]),
            ("current_date", .int 999)]), .success⟩
          ⟨.int 100, Option.some (TELEGRAM_MESSAGE "x"
            "The work has been reviewed: the reviewer liked everything.")⟩
        ).state.timestamp = .int 100 ∧
      Value.int 100 ≠ Value.int 999) ∧
    ((runCycle Option.none
        ⟨.ok 200 (.dict [("homeworks", .list [.dict
            [("homework_name", .str "x"), ("status", .str "approved")]]),
          ("current_date", .int 50)]), .success⟩
        ⟨.int 100, Option.none⟩).state.timestamp = .int 50 ∧
      (50 : Int) < 100) := by
  refine ⟨⟨rfl, rfl, ?_⟩, rfl, by decide⟩
  intro h
  injection h with h
  exact absurd h (by decide)

/-- C7 (amended): after a successful cycle observing at least one homework
record, the cursor is set (not necessarily monotonically) to the
server-reported `current_date` exactly when the rendered notification
differs from the dedup slot and its dispatch succeeds, the previous cursor
serving as default when the key is absent; otherwise the cursor is
unchanged. -/
theorem c7_cursor_set_on_delivery :
    ∀ (tok : Option String) (env : CycleEnv) (s : LoopState) (m : String)
      (response : Value),
      runTry tok env s = .update m response →
      (runCycle tok env s).state.timestamp =
        if Option.some m ≠ s.lastMessage ∧
            (send_message env.send m).1.isSome = true
        then dictGetD response "current_date" s.timestamp
        else s.timestamp := by
  intro tok env s m response hr
  by_cases hm : Option.some m ≠ s.lastMessage
  · cases hs : (send_message env.send m).1 with
    | none => simp [runCycle, hr, hm, hs]
    | some x => simp [runCycle, hr, hm, hs]
  · simp [runCycle, hr, hm]

/-- Witness for the amended C7: a new approved-homework notification is
delivered and the cursor adopts the fetched `current_date`. -/
theorem c7_cursor_set_on_delivery_witness :
    (runCycle Option.none
        ⟨.ok 200 (.dict [("homeworks", .list [.dict
            [("homework_name", .str "x"), ("status", .str "approved")]]),
          ("current_date", .int 9)]), .success⟩
        ⟨.int 3, Option.none⟩).state.timestamp =
      dictGetD (.dict [("homeworks", .list [.dict
          [("homework_name", .str "x"), ("status", .str "approved")]]),
        ("current_date", .int 9)]) "current_date" (.int 3) := by
  rw [c7_cursor_set_on_delivery Option.none
    ⟨.ok 200 (.dict [("homeworks", .list [.dict
        [("homework_name", .str "x"), ("status", .str "approved")]]),
      ("current_date", .int 9)]), .success⟩
    ⟨.int 3, Option.none⟩
    (TELEGRAM_MESSAGE "x"
      "The work has been reviewed: the reviewer liked everything.")
    (.dict [("homeworks", .list [.dict
        [("homework_name", .str "x"), ("status", .str "approved")]]),
      ("current_date", .int 9)]) rfl]
  simp [send_message]

end HomeworkBot
